import Mathlib

/-
Verification of the streaming-response client of the ai-legal-assistant
frontend.  The repository contains two implementations of the client:

  * the hook useStreamingChat (source file src/unnamed/part_008), whose
    sendStreamingMessage reads the fetch body with a single shared
    TextDecoder, buffers the decoded text, splits it on the blank-line
    event delimiter, and dispatches parsed events through a switch on the
    event type, and

  * enhancedChatStreamAPI (src/frontend/src/hooks/useEnhancedChat.ts),
    which decodes every chunk with a fresh TextDecoder, splits each chunk
    on single newlines without any carry-over buffer, and accumulates into
    a local fullResponse variable.

Both are embedded below.  JSON.parse and TextDecoder are browser builtins,
not repository code: JSON.parse is abstracted as a parameter
(parse : List Nat -> Option StreamingMessage), and TextDecoder is modelled
from the WHATWG encoding standard utf-8 decoder, byte by byte.  Text that
flows through the byte pipeline is represented as lists of Unicode code
points (List Nat); the String-valued session fields mirror the JS strings.
-/

namespace AiLegal

/-- Evaluation of the JS expression x || d for x a string or undefined:
undefined and the empty string are falsy. -/
def jsOr (o : Option String) (d : String) : String :=
  match o with
  | some s => if s = "" then d else s
  | none => d

/-- Truthiness of a JS value that is either a string or undefined. -/
def jsTruthy (o : Option String) : Bool :=
  match o with
  | some s => !(s == "")
  | none => false

/-- Discriminant of a streaming event envelope.  The TS interface declares
the four tags status, token, complete, error; at runtime JSON may carry any
other tag, which the switch of useStreamingChat sends to its default
branch, so the model keeps an explicit fifth constructor. -/
inductive MsgType where
  | status
  | token
  | complete
  | error
  | other
deriving DecidableEq, Repr

/-- The structured payload attached to a complete event (message.data).
The real object also carries source documents, confidence and timing
metadata; the streaming client only ever reads its answer field, so only
that field is modelled. -/
structure FinalData where
  answer : Option String := none
deriving DecidableEq, Repr

/-- Embeds the StreamingMessage interface of useStreamingChat: the event
envelope produced by JSON.parse of one data line.  Optional fields are
Option values; absent, null and undefined JSON fields are all modelled as
none. -/
structure StreamingMessage where
  type : MsgType
  content : Option String := none
  message : Option String := none
  data : Option FinalData := none
  timestamp : Nat := 0
deriving DecidableEq, Repr

/-- Embeds the StreamingState record of useStreamingChat. -/
structure StreamingState where
  isStreaming : Bool
  currentResponse : String
  status : String
  error : Option String
  finalData : Option FinalData
deriving DecidableEq, Repr

/-- The initial useState value of the hook (lines 20 to 26 of the source). -/
def initialState : StreamingState :=
  { isStreaming := false, currentResponse := "", status := "", error := none,
    finalData := none }

/-- The state reset performed at the top of sendStreamingMessage
(lines 41 to 47). -/
def freshState : StreamingState :=
  { isStreaming := true, currentResponse := "", status := "Connecting...",
    error := none, finalData := none }

/-- The setState update applied both when the reader reports done
(lines 101 to 105) and when the DONE sentinel arrives (lines 125 to 129);
the two updates are textually identical in the source. -/
def markComplete (prev : StreamingState) : StreamingState :=
  { prev with isStreaming := false, status := "Complete" }

/-- The setState update of stopStreaming (lines 194 to 198). -/
def stopUpdate (prev : StreamingState) : StreamingState :=
  { prev with isStreaming := false, status := "Stopped" }

/-- Embeds the switch of useStreamingChat (lines 136 to 171): the state
transition applied for one successfully parsed streaming message. -/
def applyMessage (prev : StreamingState) (m : StreamingMessage) : StreamingState :=
  match m.type with
  | .status =>
      { prev with status := jsOr m.message "Processing..." }
  | .token =>
      { prev with
        currentResponse := prev.currentResponse ++ jsOr m.content "",
        status := "Generating response..." }
  | .complete =>
      { prev with
        finalData := m.data,
        currentResponse := jsOr (m.data.bind FinalData.answer) prev.currentResponse,
        status := "Complete",
        isStreaming := false }
  | .error =>
      { prev with
        error := some (jsOr m.message "An error occurred"),
        status := "Error",
        isStreaming := false }
  | .other => prev

/-- Shorthand for a well-formed token event carrying the fragment c. -/
def mkToken (c : String) : StreamingMessage :=
  { type := .token, content := some c }

/-- Shorthand for a complete event whose payload carries the answer a. -/
def mkComplete (a : String) : StreamingMessage :=
  { type := .complete, data := some { answer := some a } }

/-- Shorthand for an error event carrying the message e. -/
def mkError (e : String) : StreamingMessage :=
  { type := .error, message := some e }

/-- Shorthand for a status event carrying the label s. -/
def mkStatus (s : String) : StreamingMessage :=
  { type := .status, message := some s }

/-- Code points of a string literal, used to move between the String used
for session fields and the List Nat used for the byte pipeline. -/
def str2cp (s : String) : List Nat :=
  s.data.map Char.toNat

/-- The code points of the line beginning that the source checks with
line.startsWith, namely the data field name, the colon and one space. -/
def dataHeader : List Nat := str2cp "data: "

/-- The code points of the end-of-stream sentinel. -/
def doneSentinel : List Nat := str2cp "[DONE]"

/-- Whitespace removed by the JS String trim method: tab, line feed,
vertical tab, form feed, carriage return, space, no-break space, line and
paragraph separators, and the byte order mark. -/
def isJsWs (n : Nat) : Bool :=
  n = 9 || n = 10 || n = 11 || n = 12 || n = 13 || n = 32 ||
  n = 160 || n = 8232 || n = 8233 || n = 65279

/-- Embeds the JS trim method on a list of code points. -/
def trimNat (l : List Nat) : List Nat :=
  ((l.dropWhile isJsWs).reverse.dropWhile isJsWs).reverse

/-- Embeds the JS split method with the two-character delimiter of two
line feeds (code point 10), as used on the buffer of sendStreamingMessage
(line 114): greedy leftmost matching, never returning an empty list. -/
def splitNN : List Nat → List (List Nat)
  | [] => [[]]
  | [a] => [[a]]
  | a :: b :: rest =>
    if a = 10 ∧ b = 10 then
      [] :: splitNN rest
    else
      let r := splitNN (b :: rest)
      (a :: r.headD []) :: r.tail

/-- Inverse of splitNN: interleaves the segments with the two-line-feed
delimiter, used to show that splitNN loses no information. -/
def joinNN : List (List Nat) → List Nat
  | [] => []
  | [s] => s
  | s :: rest => s ++ 10 :: 10 :: joinNN rest

/-- State of the WHATWG utf-8 decoder backing TextDecoder (a platform
builtin, not repository code): the partially assembled code point, the
number of continuation bytes still needed, and the admissible range of the
next byte. -/
structure Utf8State where
  codepoint : Nat
  needed : Nat
  lower : Nat
  upper : Nat
deriving DecidableEq, Repr

/-- Decoder state at the start of the stream and after every completed or
failed sequence. -/
def utf8Init : Utf8State := { codepoint := 0, needed := 0, lower := 128, upper := 191 }

/-- One byte fed to the decoder when no sequence is pending: an ASCII byte
is emitted, a lead byte opens a sequence with the range restrictions of
the WHATWG standard, anything else is a replacement character (65533). -/
def utf8StepFresh (b : Nat) : Utf8State × List Nat :=
  if b ≤ 127 then (utf8Init, [b])
  else if 194 ≤ b ∧ b ≤ 223 then
    ({ codepoint := b % 32, needed := 1, lower := 128, upper := 191 }, [])
  else if 224 ≤ b ∧ b ≤ 239 then
    ({ codepoint := b % 16, needed := 2,
       lower := if b = 224 then 160 else 128,
       upper := if b = 237 then 159 else 191 }, [])
  else if 240 ≤ b ∧ b ≤ 244 then
    ({ codepoint := b % 8, needed := 3,
       lower := if b = 240 then 144 else 128,
       upper := if b = 244 then 143 else 191 }, [])
  else (utf8Init, [65533])

/-- One byte fed to the decoder: a continuation byte in range extends the
pending sequence; a byte out of range emits a replacement character and is
reprocessed as a fresh byte, as the WHATWG algorithm prepends it back to
the stream. -/
def utf8Step (s : Utf8State) (b : Nat) : Utf8State × List Nat :=
  if s.needed = 0 then utf8StepFresh b
  else if s.lower ≤ b ∧ b ≤ s.upper then
    let cp := s.codepoint * 64 + b % 64
    if s.needed = 1 then (utf8Init, [cp])
    else ({ codepoint := cp, needed := s.needed - 1, lower := 128, upper := 191 }, [])
  else
    let r := utf8StepFresh b
    (r.1, 65533 :: r.2)

/-- Streaming decode of one chunk: the byte-by-byte run of the decoder,
returning the carried state, as performed by decoder.decode with the
stream flag set (line 110 of useStreamingChat). -/
def utf8DecodeChunk (s : Utf8State) : List Nat → Utf8State × List Nat
  | [] => (s, [])
  | b :: rest =>
    let r1 := utf8Step s b
    let r2 := utf8DecodeChunk r1.1 rest
    (r2.1, r1.2 ++ r2.2)

/-- End-of-input flush of the decoder: a decode call without the stream
flag, as in enhancedChatStreamAPI, reports a pending incomplete sequence
as one replacement character. -/
def utf8Flush (s : Utf8State) : List Nat :=
  if s.needed = 0 then [] else [65533]

/-- Embeds the body of the for loop of sendStreamingMessage
(lines 117 to 176) for one complete event text: the pair carries the
session state and whether the function has returned (the DONE branch at
line 130 returns from sendStreamingMessage, so once the flag is set
nothing further is processed).  Blank lines are skipped, lines without the
data header are ignored, the data payload is trimmed, the DONE sentinel
finalizes and returns, and a payload the parse function rejects is only
logged (lines 172 to 174), leaving the state untouched. -/
def processLine (parse : List Nat → Option StreamingMessage)
    (acc : StreamingState × Bool) (line : List Nat) : StreamingState × Bool :=
  if acc.2 then acc
  else if trimNat line = [] then acc
  else if dataHeader.isPrefixOf line then
    let data := trimNat (line.drop 6)
    if data = doneSentinel then (markComplete acc.1, true)
    else
      match parse data with
      | some m => (applyMessage acc.1 m, false)
      | none => acc
  else acc

/-- State of the read loop of sendStreamingMessage across chunks: the
decoder state, the carry-over text buffer, the session state and the
returned flag. -/
structure ReadState where
  dec : Utf8State
  buffer : List Nat
  sess : StreamingState
  finished : Bool
deriving DecidableEq, Repr

/-- Loop state before the first read: fresh decoder, empty buffer, the
session reset performed at the top of sendStreamingMessage. -/
def initRead : ReadState :=
  { dec := utf8Init, buffer := [], sess := freshState, finished := false }

/-- Embeds one iteration of the while loop of sendStreamingMessage for a
chunk of bytes (lines 109 to 177): decode the chunk with the shared
decoder, append to the buffer, split on the blank-line delimiter, keep the
trailing segment as the new buffer, and feed every complete event text to
processLine. -/
def chunkStep (parse : List Nat → Option StreamingMessage)
    (st : ReadState) (chunk : List Nat) : ReadState :=
  let d := utf8DecodeChunk st.dec chunk
  let parts := splitNN (st.buffer ++ d.2)
  let acc := parts.dropLast.foldl (processLine parse) (st.sess, st.finished)
  { dec := d.1, buffer := parts.getLastD [], sess := acc.1, finished := acc.2 }

/-- Embeds a whole run of the read loop of sendStreamingMessage over a
list of byte chunks: fold the per-chunk step from the initial state, then
apply the end-of-stream update of lines 100 to 106 unless the function
already returned at the DONE sentinel. -/
def runStream (parse : List Nat → Option StreamingMessage)
    (chunks : List (List Nat)) : StreamingState :=
  let st := chunks.foldl (chunkStep parse) initRead
  if st.finished then st.sess else markComplete st.sess

/-- Local accumulation state of enhancedChatStreamAPI
(useEnhancedChat.ts, lines 56 to 57). -/
structure EnhState where
  fullResponse : String
  finalData : Option FinalData
deriving DecidableEq, Repr

/-- The initial values of the local variables of enhancedChatStreamAPI. -/
def enhInit : EnhState := { fullResponse := "", finalData := none }

/-- Embeds the event dispatch of enhancedChatStreamAPI
(lines 105 to 132).  A token event appends its content field with the
plain JS plus-equals, so an absent content appends the text undefined.  A
complete event stores the payload and seeds fullResponse from a truthy
answer only while fullResponse is still empty.  An error event throws,
but the throw is caught by the surrounding catch for parse errors
(line 133) and only logged, so it leaves the state unchanged. -/
def enhApply (st : EnhState) (m : StreamingMessage) : EnhState :=
  match m.type with
  | .token =>
      { st with
        fullResponse := st.fullResponse ++
          (match m.content with | some c => c | none => "undefined") }
  | .complete =>
      let st1 := { st with finalData := m.data }
      if jsTruthy (m.data.bind FinalData.answer) && (st.fullResponse == "") then
        { st1 with fullResponse := (m.data.bind FinalData.answer).getD "" }
      else st1
  | .error => st
  | .status => st
  | .other => st

/-- Embeds the JS split method with the single line feed delimiter, as
used per chunk by enhancedChatStreamAPI (line 67). -/
def splitNL : List Nat → List (List Nat)
  | [] => [[]]
  | a :: rest =>
    if a = 10 then [] :: splitNL rest
    else
      let r := splitNL rest
      (a :: r.headD []) :: r.tail

/-- Embeds the body of the for loop of enhancedChatStreamAPI
(lines 69 to 139) for one line: the data payload is sliced without any
trim, the DONE sentinel returns from the function, and a payload the
parse function rejects is only logged. -/
def enhLine (parse : List Nat → Option StreamingMessage)
    (acc : EnhState × Bool) (line : List Nat) : EnhState × Bool :=
  if acc.2 then acc
  else if dataHeader.isPrefixOf line then
    let data := line.drop 6
    if data = doneSentinel then (acc.1, true)
    else
      match parse data with
      | some m => (enhApply acc.1 m, false)
      | none => acc
  else acc

/-- Embeds one iteration of the while loop of enhancedChatStreamAPI
(lines 62 to 140): every chunk is decoded with a NEW TextDecoder
(line 66), so the decoder state is fresh and flushed per chunk, and the
chunk is split on single line feeds with no carry-over buffer. -/
def enhChunkStep (parse : List Nat → Option StreamingMessage)
    (acc : EnhState × Bool) (chunk : List Nat) : EnhState × Bool :=
  if acc.2 then acc
  else
    let d := utf8DecodeChunk utf8Init chunk
    (splitNL (d.2 ++ utf8Flush d.1)).foldl (enhLine parse) acc

/-- A whole run of the read loop of enhancedChatStreamAPI over a list of
byte chunks. -/
def runEnh (parse : List Nat → Option StreamingMessage)
    (chunks : List (List Nat)) : EnhState × Bool :=
  chunks.foldl (enhChunkStep parse) (enhInit, false)

/-- Embeds the precondition check of enhancedChatStreamAPI
(lines 31 to 44): the guard is the JS falsy test on the token, which
rejects a missing token and also a stored empty string, and throws
Authentication required before fetch is called; the hook sendMessage
catches the throw and records the message as the session error.  The
result is the pair of whether the request was issued and the error the
hook records. -/
def enhancedChatPre (token : Option String) : Bool × Option String :=
  if jsTruthy token then (true, none)
  else (false, some "Authentication required")

/-- Embeds the header construction of sendStreamingMessage
(lines 63 to 73): the Authorization header is added only under the JS
truthiness test on the token, so a missing token and a stored empty
string both omit it, and nothing else depends on the token. -/
def buildHeaders (token : Option String) : List (String × String) :=
  let base := [("Content-Type", "application/json"),
               ("Accept", "text/event-stream"),
               ("Cache-Control", "no-cache")]
  if jsTruthy token then base ++ [("Authorization", "Bearer " ++ token.getD "")]
  else base

/-- Embeds the fact that sendStreamingMessage reaches its fetch call
(line 77) unconditionally: no branch between the state reset and the fetch
depends on the token. -/
def streamingRequestIssued (_token : Option String) : Bool := true

/-- The mutable refs of the useStreamingChat hook.  eventSourceRef is
initialized to null (line 28); the only assignment anywhere in the source
file is eventSourceRef.current = null inside stopStreaming (line 192), so
in particular sendStreamingMessage never stores the fetch reader in it. -/
structure HookRefs where
  eventSource : Option Unit
deriving DecidableEq, Repr

/-- Ref state when the hook mounts. -/
def initRefs : HookRefs := { eventSource := none }

/-- Embeds stopStreaming (lines 189 to 199): close and clear the event
source ref if it is set, then mark the session stopped.  The returned
flag records whether any resource was actually closed. -/
def stopStreaming (r : HookRefs) (s : StreamingState) :
    HookRefs × StreamingState × Bool :=
  match r.eventSource with
  | some _ => ({ eventSource := none }, stopUpdate s, true)
  | none => (r, stopUpdate s, false)

/-- Embeds the start of sendStreamingMessage (lines 40 to 53): reset the
session state and close any existing event source connection.  The
returned flag records whether any resource was closed; the ref itself is
not reassigned there. -/
def sendReset (r : HookRefs) : HookRefs × StreamingState × Bool :=
  (r, freshState, r.eventSource.isSome)

/-- A concrete stand-in for JSON.parse used to evaluate the model on
closed inputs: it recognizes four fixed payload texts and rejects
everything else, which is all the shape the streaming clients ever rely
on. -/
def demoParse (l : List Nat) : Option StreamingMessage :=
  if l = str2cp "TOKA" then some (mkToken "A")
  else if l = str2cp "TOKB" then some (mkToken "B")
  else if l = str2cp "TOKZ" then some (mkToken "Z")
  else if l = str2cp "ERRX" then some (mkError "boom")
  else none

/-- Concrete run of the useStreamingChat loop body on an error event
followed by a token event, used to evaluate the model at that input. -/
def errorThenTokenRun : StreamingState × Bool :=
  [dataHeader ++ str2cp "ERRX", dataHeader ++ str2cp "TOKZ"].foldl
    (processLine demoParse) (freshState, false)

/-- Concrete call of stopStreaming in the only reachable ref state: the
event source ref still holds its initial null because sendStreamingMessage
never assigns it, and the session is mid stream. -/
def stopRun : HookRefs × StreamingState × Bool :=
  stopStreaming initRefs
    { freshState with currentResponse := "Hel", status := "Generating response..." }

/-- Concrete second call of send while the first stream is live: the state
reset of sendStreamingMessage in the only reachable ref state. -/
def secondSendRun : HookRefs × StreamingState × Bool :=
  sendReset initRefs

/-- Sanity check matching the scenario of the spec: two token events and
the DONE sentinel in one chunk give the concatenated answer and the
Complete status. -/
theorem stream_scenario_check :
    runStream demoParse [str2cp "data: TOKA\n\ndata: TOKB\n\ndata: [DONE]\n\n"] =
      { isStreaming := false, currentResponse := "AB", status := "Complete",
        error := none, finalData := none } := by decide

/-- Sanity check of the decoder on a two-byte character split across
calls: byte 195 is held back, byte 169 completes code point 233. -/
theorem utf8_split_char_check :
    (utf8DecodeChunk utf8Init [195]).2 = [] ∧
    (utf8DecodeChunk (utf8DecodeChunk utf8Init [195]).1 [169]).2 = [233] := by decide

/-- The JS expression (some c) || with an empty default is c, also when c
is itself empty. -/
theorem jsOr_some_empty (c : String) : jsOr (some c) "" = c := by
  by_cases h : c = "" <;> simp [jsOr, h]

/-- Hoisting the accumulator out of a fold of string appends. -/
theorem foldl_append_hoist (cs : List String) : ∀ a : String,
    cs.foldl (· ++ ·) a = a ++ cs.foldl (· ++ ·) "" := by
  induction cs with
  | nil => intro a; simp
  | cons x xs ih =>
    intro a
    simp only [List.foldl_cons]
    rw [ih (a ++ x), ih ("" ++ x)]
    simp [String.append_assoc]

/-- String.join distributes over cons. -/
theorem join_cons (c : String) (cs : List String) :
    String.join (c :: cs) = c ++ String.join cs := by
  simp only [String.join, List.foldl_cons]
  rw [foldl_append_hoist cs ("" ++ c)]
  simp

/-- A list is a prefix, in the Bool sense, of itself followed by
anything. -/
theorem isPrefixOf_append_self (p x : List Nat) : p.isPrefixOf (p ++ x) = true := by
  induction p with
  | nil => simp [List.isPrefixOf]
  | cons a p ih => simp [List.isPrefixOf, ih]

/-- Trimming a list that starts with a non-whitespace code point never
gives the empty list. -/
theorem trimNat_cons_ne_nil (c : Nat) (l : List Nat) (h : isJsWs c = false) :
    trimNat (c :: l) ≠ [] := by
  unfold trimNat
  rw [List.dropWhile_cons_of_neg (by simp [h])]
  intro hcon
  have h2 : (c :: l).reverse.dropWhile isJsWs = [] := by
    by_contra hne
    exact hne (by simpa using congrArg List.reverse hcon)
  rw [List.dropWhile_eq_nil_iff] at h2
  have := h2 c (by simp)
  simp [h] at this

/-- The last element of an append with a nonempty right part. -/
theorem getLastD_append_right (a b : List (List Nat)) (d : List Nat) (h : b ≠ []) :
    (a ++ b).getLastD d = b.getLastD d := by
  cases b with
  | nil => simp at h
  | cons x xs =>
    rw [List.getLastD_eq_getLast?, List.getLastD_eq_getLast?,
      List.getLast?_append_of_ne_nil]
    simp

/-- splitNN never returns the empty list. -/
theorem splitNN_ne_nil (l : List Nat) : splitNN l ≠ [] := by
  induction l using splitNN.induct with
  | case1 => simp [splitNN]
  | case2 a => simp [splitNN]
  | case3 a b rest h ih => simp [splitNN, h]
  | case4 a b rest h ih => simp [splitNN, h]

/-- splitNN loses no information: interleaving its segments with the
delimiter restores the input. -/
theorem joinNN_splitNN (l : List Nat) : joinNN (splitNN l) = l := by
  induction l using splitNN.induct with
  | case1 => rfl
  | case2 a => rfl
  | case3 a b rest h ih =>
    obtain ⟨s, ss, hss⟩ := List.exists_cons_of_ne_nil (splitNN_ne_nil rest)
    simp only [splitNN, if_pos h, joinNN, hss] at ih ⊢
    simp [ih, h.1, h.2]
  | case4 a b rest h ih =>
    obtain ⟨s, ss, hss⟩ := List.exists_cons_of_ne_nil (splitNN_ne_nil (b :: rest))
    simp only [splitNN, if_neg h, hss, List.headD_cons, List.tail_cons] at ih ⊢
    cases ss with
    | nil => simpa [joinNN] using congrArg (a :: ·) ih
    | cons t ts =>
      simp only [joinNN, List.cons_append] at ih ⊢
      rw [ih]

/-- Splitting a concatenation: the left part contributes its complete
segments, and its trailing segment is carried into the split of the right
part.  This is exactly the buffering discipline of the read loop. -/
theorem splitNN_append (u : List Nat) : ∀ (v : List Nat),
    splitNN (u ++ v) =
      (splitNN u).dropLast ++ splitNN ((splitNN u).getLastD [] ++ v) := by
  induction u using splitNN.induct with
  | case1 =>
    intro v
    simp [splitNN]
  | case2 a =>
    intro v
    simp [splitNN]
  | case3 a b rest h ih =>
    intro v
    obtain ⟨s, ss, hss⟩ := List.exists_cons_of_ne_nil (splitNN_ne_nil rest)
    have hu : splitNN (a :: b :: rest) = [] :: splitNN rest := by
      simp [splitNN, h]
    have hlhs : splitNN (a :: b :: (rest ++ v)) = [] :: splitNN (rest ++ v) := by
      simp [splitNN, h]
    simp only [List.cons_append, hlhs, hu, ih v, hss]
    simp [List.dropLast, List.getLastD]
  | case4 a b rest h ih =>
    intro v
    obtain ⟨s, ss, hss⟩ := List.exists_cons_of_ne_nil (splitNN_ne_nil (b :: rest))
    have hu : splitNN (a :: b :: rest) = (a :: s) :: ss := by
      simp [splitNN, h, hss]
    have hlhs : splitNN (a :: b :: (rest ++ v)) =
        (a :: (splitNN (b :: (rest ++ v))).headD []) ::
          (splitNN (b :: (rest ++ v))).tail := by
      simp [splitNN, h]
    have ihv := ih v
    rw [hss] at ihv
    simp only [List.cons_append] at ihv
    cases ss with
    | nil =>
      have hbs : b :: rest = s := by
        have hj := joinNN_splitNN (b :: rest)
        rw [hss] at hj
        simpa [joinNN] using hj.symm
      simp only [List.cons_append, hu, List.dropLast_single,
        List.getLastD, List.nil_append]
      rw [show a :: b :: (rest ++ v) = (a :: s) ++ v from by
        rw [← hbs]; simp]
      simp
    | cons t ts =>
      simp only [List.cons_append, hlhs, ihv, hu]
      simp [List.dropLast, List.getLastD, List.headD]

/-- Feeding a concatenation of byte lists to the decoder is the same as
feeding the two lists in sequence, carrying the state: the decoder step is
per byte, so the output depends only on the byte sequence. -/
theorem utf8DecodeChunk_append (a : List Nat) : ∀ (s : Utf8State) (b : List Nat),
    utf8DecodeChunk s (a ++ b) =
      ((utf8DecodeChunk (utf8DecodeChunk s a).1 b).1,
        (utf8DecodeChunk s a).2 ++ (utf8DecodeChunk (utf8DecodeChunk s a).1 b).2) := by
  induction a with
  | nil => intro s b; simp [utf8DecodeChunk]
  | cons x xs ih =>
    intro s b
    simp only [List.cons_append, utf8DecodeChunk, List.append_eq]
    rw [ih]
    simp [List.append_assoc]

/-- Two iterations of the read loop are one iteration on the concatenated
chunk: the decoder state, the carry-over buffer and the returned flag make
the loop body compose over chunk boundaries. -/
theorem chunkStep_append (parse : List Nat → Option StreamingMessage)
    (st : ReadState) (c1 c2 : List Nat) :
    chunkStep parse (chunkStep parse st c1) c2 = chunkStep parse st (c1 ++ c2) := by
  simp only [chunkStep]
  rw [utf8DecodeChunk_append]
  rw [← List.append_assoc]
  rw [splitNN_append (st.buffer ++ (utf8DecodeChunk st.dec c1).2)]
  rw [List.dropLast_append_of_ne_nil _ (splitNN_ne_nil _)]
  rw [List.foldl_append]
  rw [getLastD_append_right _ _ _ (splitNN_ne_nil _)]

/-- Folding the loop body over a list of chunks, starting after one chunk,
is one loop body application on the concatenation. -/
theorem foldl_chunkStep_flatten (parse : List Nat → Option StreamingMessage) :
    ∀ (cs : List (List Nat)) (st : ReadState) (c : List Nat),
      cs.foldl (chunkStep parse) (chunkStep parse st c) =
        chunkStep parse st (c ++ cs.flatten) := by
  intro cs
  induction cs with
  | nil => intro st c; simp
  | cons c2 cs ih =>
    intro st c
    simp only [List.foldl_cons, List.flatten_cons]
    rw [chunkStep_append, ih, List.append_assoc]

/-- A fold of token events over the useStreamingChat switch appends the
concatenation of the fragments. -/
theorem applyMessage_token_fold (cs : List String) : ∀ s : StreamingState,
    ((cs.map mkToken).foldl applyMessage s).currentResponse =
      s.currentResponse ++ String.join cs := by
  induction cs with
  | nil => intro s; simp [String.join]
  | cons c cs ih =>
    intro s
    simp only [List.map_cons, List.foldl_cons]
    rw [ih, join_cons]
    simp [applyMessage, mkToken, jsOr_some_empty, String.append_assoc]

/-- A fold of token events over the enhancedChatStreamAPI dispatch appends
the concatenation of the fragments. -/
theorem enhApply_token_fold (cs : List String) : ∀ st : EnhState,
    ((cs.map mkToken).foldl enhApply st).fullResponse =
      st.fullResponse ++ String.join cs := by
  induction cs with
  | nil => intro st; simp [String.join]
  | cons c cs ih =>
    intro st
    simp only [List.map_cons, List.foldl_cons]
    rw [ih, join_cons]
    simp [enhApply, mkToken, String.append_assoc]

/-- C1: for every finite sequence of well-formed token events processed in
one session, the accumulated text (currentResponse of useStreamingChat,
fullResponse of enhancedChatStreamAPI) is exactly the concatenation of the
content fragments in arrival order, with no reordering, deduplication or
omission. -/
theorem claim_C1 (cs : List String) :
    ((cs.map mkToken).foldl applyMessage freshState).currentResponse = String.join cs
    ∧ ((cs.map mkToken).foldl enhApply enhInit).fullResponse = String.join cs := by
  constructor
  · rw [applyMessage_token_fold]
    simp [freshState]
  · rw [enhApply_token_fold]
    simp [enhInit]

/-- C2 counterexample: in useStreamingChat a complete event whose payload
carries a non-empty answer rewrites the token-built text, so the previous
accumulated text AB is not a prefix of the new text X. -/
theorem claim_C2_cx :
    (applyMessage freshState (mkToken "AB")).currentResponse = "AB"
    ∧ (applyMessage (applyMessage freshState (mkToken "AB"))
        (mkComplete "X")).currentResponse = "X"
    ∧ ¬ ((applyMessage freshState (mkToken "AB")).currentResponse.data <+:
          (applyMessage (applyMessage freshState (mkToken "AB"))
            (mkComplete "X")).currentResponse.data) := by
  decide

/-- C2 as amended: within one session the accumulated text of
useStreamingChat never shrinks at any event other than a complete event
carrying a truthy answer, which replaces it wholesale; in
enhancedChatStreamAPI the previous text is a prefix of the new text after
every event, including complete after tokens. -/
theorem claim_C2 :
    (∀ (s : StreamingState) (m : StreamingMessage),
        (m.type = MsgType.complete → jsTruthy (m.data.bind FinalData.answer) = false) →
        s.currentResponse.data <+: (applyMessage s m).currentResponse.data)
    ∧ ∀ (st : EnhState) (m : StreamingMessage),
        st.fullResponse.data <+: (enhApply st m).fullResponse.data := by
  constructor
  · rintro s ⟨ty, co, me, da, ts⟩ hm
    cases ty with
    | status => simp [applyMessage]
    | token =>
      simp only [applyMessage, String.data_append]
      exact List.prefix_append _ _
    | complete =>
      have hfalse := hm rfl
      simp only [applyMessage]
      rcases hda : da.bind FinalData.answer with _ | a
      · simp [jsOr, hda]
      · rw [hda] at hfalse
        have ha : a = "" := by simpa [jsTruthy] using hfalse
        simp [jsOr, hda, ha]
    | error => simp [applyMessage]
    | other => simp [applyMessage]
  · rintro st ⟨ty, co, me, da, ts⟩
    cases ty with
    | token =>
      simp only [enhApply, String.data_append]
      exact List.prefix_append _ _
    | complete =>
      simp only [enhApply]
      by_cases hc : (jsTruthy (da.bind FinalData.answer) && (st.fullResponse == "")) = true
      · rw [if_pos hc]
        have he : st.fullResponse = "" := by
          simpa using ((Bool.and_eq_true _ _).mp hc).2
        rw [he]
        simp
      · rw [if_neg hc]
    | error => simp [enhApply]
    | status => simp [enhApply]
    | other => simp [enhApply]

/-- C2 witness: the amended statement applied to a concrete status event
and a concrete fresh session. -/
theorem claim_C2_w :
    ((mkStatus "working").type = MsgType.complete →
        jsTruthy ((mkStatus "working").data.bind FinalData.answer) = false)
    ∧ freshState.currentResponse.data <+:
        (applyMessage freshState (mkStatus "working")).currentResponse.data :=
  ⟨by decide, claim_C2.1 freshState (mkStatus "working") (by decide)⟩

/-- C3: a complete event carrying answer X, processed in a session where
no token event was processed before (so the accumulated text is still
empty), makes the accumulated text exactly X, and the loop exit update,
applied both at the DONE sentinel and at normal stream end, leaves it
exactly X, with no duplication. -/
theorem claim_C3 (s : StreamingState) (X : String) (h : s.currentResponse = "") :
    (applyMessage s (mkComplete X)).currentResponse = X
    ∧ (markComplete (applyMessage s (mkComplete X))).currentResponse = X := by
  have hcr : (applyMessage s (mkComplete X)).currentResponse = X := by
    simp [applyMessage, mkComplete, h, jsOr_some_empty]
  exact ⟨hcr, by simpa [markComplete] using hcr⟩

/-- C3 witness: the concrete fresh session and the answer X. -/
theorem claim_C3_w :
    freshState.currentResponse = ""
    ∧ ((applyMessage freshState (mkComplete "X")).currentResponse = "X"
        ∧ (markComplete (applyMessage freshState (mkComplete "X"))).currentResponse = "X") :=
  ⟨rfl, claim_C3 freshState "X" rfl⟩

/-- C4 as amended: the useStreamingChat parser is partition independent.
For every parse function and every way of cutting the byte stream into
chunks, including cuts inside a multi-byte character or inside an event,
the final session state equals that of processing the whole stream as one
chunk, because the decoder state and the trailing partial event are
carried across reads. -/
theorem claim_C4 (parse : List Nat → Option StreamingMessage)
    (chunks : List (List Nat)) :
    runStream parse chunks = runStream parse [chunks.flatten] := by
  simp only [runStream]
  cases chunks with
  | nil =>
    have h0 : chunkStep parse initRead [] = initRead := rfl
    simp [h0]
  | cons c cs =>
    simp only [List.foldl_cons, List.foldl_nil, List.flatten_cons]
    rw [foldl_chunkStep_flatten]

/-- C4 counterexample: enhancedChatStreamAPI is not partition independent.
The same bytes delivered as one chunk produce the token fragment A, but
delivered as two chunks cut inside the event they produce nothing, because
each chunk is split with no carry-over buffer. -/
theorem claim_C4_cx :
    str2cp "data: TOKA\n" = str2cp "data: TO" ++ str2cp "KA\n"
    ∧ (runEnh demoParse [str2cp "data: TOKA\n"]).1.fullResponse = "A"
    ∧ (runEnh demoParse [str2cp "data: TO", str2cp "KA\n"]).1.fullResponse = "" := by
  decide

/-- C5 counterexample: after an error event the useStreamingChat loop
keeps reading: a following token event is still processed, mutating the
accumulated text to Z and the status label, and the returned flag stays
false. -/
theorem claim_C5_cx :
    errorThenTokenRun.1.error = some "boom"
    ∧ errorThenTokenRun.1.currentResponse = "Z"
    ∧ errorThenTokenRun.1.status = "Generating response..."
    ∧ errorThenTokenRun.2 = false := by
  decide

/-- C5 as amended: an error event sets the session error from the payload,
the Error status label and the not-streaming flag, but reading does not
stop: processing an error data line never sets the returned flag of the
read loop, and in enhancedChatStreamAPI an error event has no effect at
all because its throw is swallowed by the parse-error catch. -/
theorem claim_C5 :
    (∀ (s : StreamingState) (m : StreamingMessage), m.type = MsgType.error →
        applyMessage s m =
          { s with
            error := some (jsOr m.message "An error occurred"),
            status := "Error",
            isStreaming := false })
    ∧ (∀ (parse : List Nat → Option StreamingMessage)
        (acc : StreamingState × Bool) (line : List Nat) (m : StreamingMessage),
        m.type = MsgType.error →
        trimNat (line.drop 6) ≠ doneSentinel →
        parse (trimNat (line.drop 6)) = some m →
        (processLine parse acc line).2 = acc.2)
    ∧ ∀ (st : EnhState) (m : StreamingMessage), m.type = MsgType.error →
        enhApply st m = st := by
  refine ⟨?_, ?_, ?_⟩
  · rintro s ⟨ty, co, me, da, ts⟩ hm
    cases ty <;> simp_all [applyMessage]
  · intro parse acc line m hm hdone hp
    by_cases h2 : acc.2 = true
    · simp [processLine, h2]
    · have h2f : acc.2 = false := by simpa using h2
      by_cases ht : trimNat line = []
      · simp [processLine, h2f, ht]
      · by_cases hpre : dataHeader.isPrefixOf line = true
        · simp [processLine, h2f, ht, hpre, hdone, hp]
        · simp [processLine, h2f, ht, hpre]
  · rintro st ⟨ty, co, me, da, ts⟩ hm
    cases ty <;> simp_all [enhApply]

/-- C5 witness: the error transition applied to a concrete fresh session
and error event. -/
theorem claim_C5_w :
    (mkError "boom").type = MsgType.error
    ∧ applyMessage freshState (mkError "boom") =
        { freshState with
          error := some (jsOr (mkError "boom").message "An error occurred"),
          status := "Error",
          isStreaming := false } :=
  ⟨rfl, claim_C5.1 freshState (mkError "boom") rfl⟩

/-- C6: stopStreaming in the only reachable ref state closes nothing (the
event source ref is still its initial null, since sendStreamingMessage
never assigns the fetch reader to it), sets the Stopped label, and the
unreleased reader still processes later events, which keep mutating the
session text and status after the stop. -/
theorem claim_C6 :
    stopRun.2.2 = false
    ∧ stopRun.1.eventSource = none
    ∧ stopRun.2.1.status = "Stopped"
    ∧ stopRun.2.1.isStreaming = false
    ∧ (applyMessage stopRun.2.1 (mkToken "lo")).currentResponse = "Hello"
    ∧ (applyMessage stopRun.2.1 (mkToken "lo")).status = "Generating response..." := by
  decide

/-- C7: a second send closes nothing (the event source ref is null, the
first fetch reader was never stored in it), resets the session, and a
token fragment still delivered by the first, unclosed stream lands in the
accumulated text of the second session. -/
theorem claim_C7 :
    secondSendRun.2.2 = false
    ∧ secondSendRun.1.eventSource = none
    ∧ (applyMessage secondSendRun.2.1 (mkToken "A")).currentResponse = "A" := by
  decide

/-- C8 counterexample: with no stored token useStreamingChat still issues
the request, merely without an Authorization header, and the session after
the reset carries no error and the Connecting status, so there is no
synchronous precondition failure. -/
theorem claim_C8_cx :
    streamingRequestIssued none = true
    ∧ (buildHeaders none).lookup "Authorization" = none
    ∧ freshState.error = none
    ∧ freshState.status = "Connecting..." := by
  decide

/-- C8 as amended: in enhancedChatStreamAPI a falsy token, that is a
missing token and also a stored empty string, is reported synchronously as
the error Authentication required and no request is issued, while a
non-empty token passes the check; useStreamingChat issues the request for
every token state and omits the Authorization header exactly when the
token is falsy. -/
theorem claim_C8 :
    enhancedChatPre none = (false, some "Authentication required")
    ∧ enhancedChatPre (some "") = (false, some "Authentication required")
    ∧ (∀ t : String, t ≠ "" → enhancedChatPre (some t) = (true, none))
    ∧ (∀ tok : Option String, streamingRequestIssued tok = true)
    ∧ (buildHeaders none).lookup "Authorization" = none
    ∧ (buildHeaders (some "")).lookup "Authorization" = none := by
  refine ⟨rfl, by decide, ?_, fun tok => rfl, by decide, by decide⟩
  intro t ht
  simp [enhancedChatPre, jsTruthy, ht]

/-- C8 witness: a concrete non-empty token passes the precondition check
of enhancedChatStreamAPI. -/
theorem claim_C8_w :
    ("tok123" : String) ≠ ""
    ∧ enhancedChatPre (some "tok123") = (true, none) :=
  ⟨by decide, claim_C8.2.2.1 "tok123" (by decide)⟩

/-- Evaluation of the loop body on a line made of the data header and a
payload: the guards are discharged and the body reduces to the sentinel
check and the parse dispatch on the trimmed payload. -/
theorem processLine_data_step (parse : List Nat → Option StreamingMessage)
    (acc : StreamingState × Bool) (x : List Nat) (h2 : acc.2 = false) :
    processLine parse acc (dataHeader ++ x) =
      (if trimNat x = doneSentinel then (markComplete acc.1, true)
       else
         match parse (trimNat x) with
         | some m => (applyMessage acc.1 m, false)
         | none => acc) := by
  have hcons : dataHeader ++ x = 100 :: ([97, 116, 97, 58, 32] ++ x) := rfl
  have hne : trimNat (dataHeader ++ x) ≠ [] := by
    rw [hcons]
    exact trimNat_cons_ne_nil 100 _ (by decide)
  have hdrop : (dataHeader ++ x).drop 6 = x := by
    have h6 : dataHeader.length = 6 := rfl
    rw [← h6]
    exact List.drop_left dataHeader x
  have hpre : dataHeader.isPrefixOf (dataHeader ++ x) = true :=
    isPrefixOf_append_self _ _
  simp [processLine, h2, hne, hpre, hdrop]

/-- C9: a malformed event between two valid token events is skipped
without ending the session: for the three data lines carrying A, a payload
the parse function rejects, and B, the final accumulated text is AB, no
session error is set, and the loop has not returned. -/
theorem claim_C9 (parse : List Nat → Option StreamingMessage) (dA g dB : List Nat)
    (hA : parse (trimNat dA) = some (mkToken "A"))
    (hAd : trimNat dA ≠ doneSentinel)
    (hg : parse (trimNat g) = none)
    (hgd : trimNat g ≠ doneSentinel)
    (hB : parse (trimNat dB) = some (mkToken "B"))
    (hBd : trimNat dB ≠ doneSentinel) :
    ([dataHeader ++ dA, dataHeader ++ g, dataHeader ++ dB].foldl
        (processLine parse) (freshState, false)).1.currentResponse = "AB"
    ∧ ([dataHeader ++ dA, dataHeader ++ g, dataHeader ++ dB].foldl
        (processLine parse) (freshState, false)).1.error = none
    ∧ ([dataHeader ++ dA, dataHeader ++ g, dataHeader ++ dB].foldl
        (processLine parse) (freshState, false)).2 = false := by
  have h1 : processLine parse (freshState, false) (dataHeader ++ dA)
      = (applyMessage freshState (mkToken "A"), false) := by
    rw [processLine_data_step parse _ dA rfl, if_neg hAd, hA]
  have h2 : processLine parse (applyMessage freshState (mkToken "A"), false)
      (dataHeader ++ g) = (applyMessage freshState (mkToken "A"), false) := by
    rw [processLine_data_step parse _ g rfl, if_neg hgd, hg]
  have h3 : processLine parse (applyMessage freshState (mkToken "A"), false)
      (dataHeader ++ dB)
      = (applyMessage (applyMessage freshState (mkToken "A")) (mkToken "B"), false) := by
    rw [processLine_data_step parse _ dB rfl, if_neg hBd, hB]
  simp only [List.foldl_cons, List.foldl_nil, h1, h2, h3]
  decide

/-- C9 witness: the skip behavior evaluated with the concrete stand-in
parse function and concrete payloads. -/
theorem claim_C9_w :
    (demoParse (trimNat (str2cp "TOKA")) = some (mkToken "A")
      ∧ trimNat (str2cp "TOKA") ≠ doneSentinel
      ∧ demoParse (trimNat (str2cp "GARBAGE")) = none
      ∧ trimNat (str2cp "GARBAGE") ≠ doneSentinel
      ∧ demoParse (trimNat (str2cp "TOKB")) = some (mkToken "B")
      ∧ trimNat (str2cp "TOKB") ≠ doneSentinel)
    ∧ (([dataHeader ++ str2cp "TOKA", dataHeader ++ str2cp "GARBAGE",
          dataHeader ++ str2cp "TOKB"].foldl (processLine demoParse)
          (freshState, false)).1.currentResponse = "AB"
        ∧ ([dataHeader ++ str2cp "TOKA", dataHeader ++ str2cp "GARBAGE",
            dataHeader ++ str2cp "TOKB"].foldl (processLine demoParse)
            (freshState, false)).1.error = none
        ∧ ([dataHeader ++ str2cp "TOKA", dataHeader ++ str2cp "GARBAGE",
            dataHeader ++ str2cp "TOKB"].foldl (processLine demoParse)
            (freshState, false)).2 = false) :=
  ⟨⟨by decide, by decide, by decide, by decide, by decide, by decide⟩,
    claim_C9 demoParse (str2cp "TOKA") (str2cp "GARBAGE") (str2cp "TOKB")
      (by decide) (by decide) (by decide) (by decide) (by decide) (by decide)⟩

/-- C10: a syntactically valid token event with an absent content field
leaves the accumulated text exactly unchanged and changes nothing but the
status label: the transition is total and appends the empty string. -/
theorem claim_C10 (s : StreamingState) :
    applyMessage s { type := MsgType.token, content := none } =
      { s with status := "Generating response..." } := by
  simp [applyMessage, jsOr]

end AiLegal
